import Mathlib

/-!
# Verification of the HMPI predictor repository

Shallow embedding of the feature-assembly pipeline (`src/backend/predictor.py`),
the HTTP prediction endpoint (`src/backend/app.py`) and the training-script
target computation and imputation steps (`src/train_model.py`).

External effects (HTTP calls to the Overpass, open-elevation, NASA POWER
services and the population raster file) are modelled as explicit response
parameters: `none` models a call that raises, `some` models a successful
response carrying the parsed payload.  Numeric values in the predictor are
modelled as real numbers (float arithmetic idealised over `ℝ`); the training
script is modelled over `ℚ`.
-/

namespace HMPI

/-- The `DEFAULTS` dict of `predictor.py` (fallback values), as an
association list in source order. -/
def DEFAULTS : List (String × ℝ) :=
  [("dist_to_nearest_industrial_area_km", 5),
   ("dist_to_nearest_drain_outfall_km", 2),
   ("dist_to_nearest_landfill_km", 8),
   ("dist_to_nearest_major_highway_km", 3),
   ("annual_precip_mm", 1100),
   ("population_density_per_km2", 450),
   ("elevation_m", 250),
   ("land_use_category_estuary", 0),
   ("soil_type_clay", 1)]

/-- Dict indexing `DEFAULTS[k]`.  Every call site in the source passes a key
of the dict, so the `getD 0` junk value for absent keys is never produced
(proved where used). -/
def defaultOf (k : String) : ℝ := (DEFAULTS.lookup k).getD 0

/-- `shapely` planar Euclidean distance between two points `(x, y)`. -/
noncomputable def pointDistance (p q : ℝ × ℝ) : ℝ :=
  Real.sqrt ((p.1 - q.1) ^ 2 + (p.2 - q.2) ^ 2)

/-- Python `min` on a list; the `[]` case is unreachable at the one call
site, which is guarded by `if not coords`. -/
noncomputable def listMin : List ℝ → ℝ
  | [] => 0
  | [x] => x
  | x :: y :: xs => min x (listMin (y :: xs))

/-- An element of the Overpass JSON response: `some (lat, lon)` when the
element has both a `"lat"` and a `"lon"` field, `none` otherwise. -/
abbrev OverpassElem := Option (ℝ × ℝ)

/-- `_get_nearest_distance` of `predictor.py`.  The `resp` parameter stands
for the outcome of the HTTP request plus JSON parse: `none` when anything in
the `try` block raises, `some elems` for a parsed `elements` list (a missing
`"elements"` key is `data.get("elements", [])`, i.e. `some []`). -/
noncomputable def get_nearest_distance (lat lon : ℝ)
    (resp : Option (List OverpassElem)) (fallback_key : String) : ℝ :=
  match resp with
  | none => defaultOf fallback_key
  | some elems =>
    let coords := elems.filterMap id
    if coords.isEmpty then defaultOf fallback_key
    else
      listMin (coords.map (fun c => pointDistance (lon, lat) (c.2, c.1) * 111))

/-- `_get_elevation`: `none` models any raise in the `try` block, `some v`
a response whose `results[0].elevation` is `v`. -/
def get_elevation (lat lon : ℝ) (resp : Option ℝ) : ℝ :=
  match resp with
  | some v => v
  | none => defaultOf "elevation_m"

/-- `_get_rainfall`: `none` models any raise, `some v` a response whose
`properties.parameter.PRECTOT.ANN` is `v`. -/
def get_rainfall (lat lon : ℝ) (resp : Option ℝ) : ℝ :=
  match resp with
  | some v => v
  | none => defaultOf "annual_precip_mm"

/-- `_get_population_density`: `none` models any raise while opening or
sampling the raster, `some v` a sampled value `float(val[0]) = v`
(`rasterio` sampling of a single coordinate yields exactly one value, so the
implicit-`None` path after the `for` loop cannot occur). -/
def get_population_density (lat lon : ℝ) (resp : Option ℝ) : ℝ :=
  match resp with
  | some v => v
  | none => defaultOf "population_density_per_km2"

/-- One response per external data source consulted by `build_features`:
four Overpass queries, the rainfall and elevation services and the
population raster. -/
structure Responses where
  industrial : Option (List OverpassElem)
  drain : Option (List OverpassElem)
  landfill : Option (List OverpassElem)
  highway : Option (List OverpassElem)
  rainfall : Option ℝ
  population : Option ℝ
  elevation : Option ℝ

/-- The `features` dict literal of `HMPIPredictor.build_features`, in source
order. -/
noncomputable def features_dict (lat lon : ℝ) (r : Responses) : List (String × ℝ) :=
  [("latitude", lat),
   ("longitude", lon),
   ("dist_to_nearest_industrial_area_km",
      get_nearest_distance lat lon r.industrial "dist_to_nearest_industrial_area_km"),
   ("dist_to_nearest_drain_outfall_km",
      get_nearest_distance lat lon r.drain "dist_to_nearest_drain_outfall_km"),
   ("dist_to_nearest_landfill_km",
      get_nearest_distance lat lon r.landfill "dist_to_nearest_landfill_km"),
   ("dist_to_nearest_major_highway_km",
      get_nearest_distance lat lon r.highway "dist_to_nearest_major_highway_km"),
   ("annual_precip_mm", get_rainfall lat lon r.rainfall),
   ("population_density_per_km2", get_population_density lat lon r.population),
   ("elevation_m", get_elevation lat lon r.elevation),
   ("land_use_category_estuary", defaultOf "land_use_category_estuary"),
   ("soil_type_clay", defaultOf "soil_type_clay")]

/-- The alignment loop `for col in self.feature_columns: if col not in
df.columns: df[col] = 0`, appending missing columns with value `0`. -/
def addMissingColumns (df : List (String × ℝ)) (cols : List String) :
    List (String × ℝ) :=
  cols.foldl (fun d c => if (d.lookup c).isSome then d else d ++ [(c, 0)]) df

/-- Column selection `df[cols]`: `none` models the `KeyError` pandas raises
when a requested column is absent. -/
def selectColumns (df : List (String × ℝ)) : List String → Option (List (String × ℝ))
  | [] => some []
  | c :: cs =>
    match df.lookup c, selectColumns df cs with
    | some v, some rest => some ((c, v) :: rest)
    | _, _ => none

/-- `HMPIPredictor.build_features`, with the persisted training column list
`fc` standing for `self.feature_columns`. -/
noncomputable def build_features (fc : List String) (lat lon : ℝ)
    (r : Responses) : Option (List (String × ℝ)) :=
  selectColumns (addMissingColumns (features_dict lat lon r) fc) fc

/-- Python `round(x, 2)` idealised over `ℝ` (tie-breaking modelled as
round-half-up; ties only matter at exact multiples of `1/200`, which the
claims never exercise). -/
noncomputable def round2 (x : ℝ) : ℝ := (round (x * 100) : ℤ) / 100

/-- `HMPIPredictor.get_prediction`: the loaded regression model is the
abstract function `model` from a one-row feature frame to the single entry
of `model.predict(X)`; the result is `float`-converted and rounded to two
decimals.  `none` propagates a `KeyError` from `build_features` (proved
impossible below). -/
noncomputable def get_prediction (model : List (String × ℝ) → ℝ)
    (fc : List String) (lat lon : ℝ) (r : Responses) : Option ℝ :=
  (build_features fc lat lon r).map (fun X => round2 (model X))

/-! ## The `/api/predict` endpoint of `src/backend/app.py` -/

/-- A JSON value as far as the endpoint inspects it. -/
inductive JVal where
  | num (x : ℝ)
  | str (s : String)
  | jnull
  | jbool (b : Bool)
  | jarr
  | jobj

/-- Digit-string accumulator for the decimal-literal parser. -/
def digitsVal : List Char → ℕ → Option ℕ
  | [], acc => some acc
  | c :: rest, acc =>
    if c.isDigit then digitsVal rest (acc * 10 + (c.toNat - 48)) else none

/-- Parse an unsigned decimal literal `digits [. digits]` / `. digits`. -/
def parseDecimal (cs : List Char) : Option ℚ :=
  let intPart := cs.takeWhile (·.isDigit)
  let rest := cs.dropWhile (·.isDigit)
  match rest with
  | [] =>
    if intPart.isEmpty then none
    else (digitsVal intPart 0).map (fun n => (n : ℚ))
  | c :: frac =>
    if c = '.' ∧ frac.all (·.isDigit) ∧ ¬(intPart.isEmpty ∧ frac.isEmpty) then
      match digitsVal intPart 0, digitsVal frac 0 with
      | some n, some f => some ((n : ℚ) + (f : ℚ) / (10 : ℚ) ^ frac.length)
      | _, _ => none
    else none

/-- `float(s)` on a string: `some` iff `s` is a decimal literal with an
optional sign (the exotic forms `inf`, `nan`, exponents and padding
whitespace are not modelled; no claim exercises them). -/
def pyFloatString (s : String) : Option ℚ :=
  match s.data with
  | '+' :: rest => parseDecimal rest
  | '-' :: rest => (parseDecimal rest).map Neg.neg
  | cs => parseDecimal cs

/-- Python `float(v)` on a parsed JSON value, with the raised exception
message on failure. -/
noncomputable def pyFloat : JVal → Except String ℝ
  | .num x => .ok x
  | .jbool b => .ok (if b then 1 else 0)
  | .str s =>
    match pyFloatString s with
    | some q => .ok (q : ℝ)
    | none => .error ("could not convert string to float: " ++ s)
  | _ => .error "float() argument must be a string or a real number"

/-- The state the endpoint closes over when the predictor loaded: the model,
the persisted column list, and the behaviour of the external data sources
during this request. -/
structure PredCtx where
  model : List (String × ℝ) → ℝ
  feature_columns : List String
  resp : Responses

/-- The JSON body the endpoint returns. -/
inductive ApiResp where
  | success (lat lon hmpi : ℝ)
  | failure (msg : String)

/-- The parsed request body: a JSON object is an association list; `none`
is `get_json()` returning `None`.  (Non-object JSON bodies are not
modelled; no claim exercises them.) -/
abbrev ReqBody := Option (List (String × JVal))

/-- `predict_hmpi` of `src/backend/app.py`: `pred = none` models the
module-level predictor having failed to load; `getJson` is the outcome of
`request.get_json()` (`.error` = it raised, caught by the handler's
`except`).  Returns the HTTP status and response body.  `not data` is true
for both `None` and the empty dict. -/
noncomputable def predict_hmpi (pred : Option PredCtx)
    (getJson : Except String ReqBody) : ℕ × ApiResp :=
  match pred with
  | none => (500, .failure "Predictor pipeline not available on server.")
  | some p =>
    match getJson with
    | .error e => (500, .failure ("Prediction failed: " ++ e))
    | .ok dataOpt =>
      match dataOpt with
      | none => (400, .failure "Missing latitude or longitude in request.")
      | some data =>
        if data.isEmpty ∨ (data.lookup "latitude").isNone ∨
            (data.lookup "longitude").isNone then
          (400, .failure "Missing latitude or longitude in request.")
        else
          match data.lookup "latitude", data.lookup "longitude" with
          | some latv, some lonv =>
            (match pyFloat latv with
             | .error e => (500, .failure ("Prediction failed: " ++ e))
             | .ok lat =>
               match pyFloat lonv with
               | .error e => (500, .failure ("Prediction failed: " ++ e))
               | .ok lon =>
                 match get_prediction p.model p.feature_columns lat lon p.resp with
                 | some h => (200, .success lat lon h)
                 | none => (500, .failure "Prediction failed: KeyError"))
          | _, _ => (400, .failure "Missing latitude or longitude in request.")

end HMPI

namespace Train

/-! ## `src/train_model.py`: HMPI target computation and imputation -/

/-- The `limits` dict (regulatory limits of the nine metals), in source
order, over `ℚ`. -/
def limits : List (String × ℚ) :=
  [("Pb_mgL", 0.01), ("Cd_mgL", 0.003), ("Cr_mgL", 0.05),
   ("As_mgL", 0.01), ("Ni_mgL", 0.07), ("Zn_mgL", 5.0),
   ("Cu_mgL", 2.0), ("Fe_mgL", 0.3), ("Mn_mgL", 0.1)]

/-- `weights = {metal: 1 / limit for metal, limit in limits.items()}`. -/
def weights : List (String × ℚ) := limits.map (fun p => (p.1, 1 / p.2))

/-- `sum(weights.values())`. -/
def hmpiDenominator : ℚ := (weights.map Prod.snd).sum

/-- `calculate_hmpi(row)`: a row is the map from metal column name to its
(already numeric, median-imputed) concentration.  `none` models the
`np.nan` branch. -/
def calculate_hmpi (row : String → ℚ) : Option ℚ :=
  let numerator :=
    (limits.map (fun p => row p.1 / p.2 * 100 * ((weights.lookup p.1).getD 0))).sum
  if hmpiDenominator > 0 then some (numerator / hmpiDenominator) else none

/-- Insert into a sorted list (ascending). -/
def insertSortedQ (x : ℚ) : List ℚ → List ℚ
  | [] => [x]
  | y :: ys => if x ≤ y then x :: y :: ys else y :: insertSortedQ x ys

/-- Insertion sort, ascending. -/
def sortQ : List ℚ → List ℚ
  | [] => []
  | x :: xs => insertSortedQ x (sortQ xs)

/-- `Series.median()` with NaN cells as `none`: NaNs are skipped; the
median of an even count is the mean of the two middle values; the median of
an all-NaN column is NaN (`none`). -/
def medianQ (xs : List (Option ℚ)) : Option ℚ :=
  let v := sortQ (xs.filterMap id)
  let n := v.length
  if n % 2 = 1 then v.get? (n / 2)
  else
    match v.get? (n / 2 - 1), v.get? (n / 2) with
    | some a, some b => some ((a + b) / 2)
    | _, _ => none

/-- `col.fillna(col.median())` on a numeric column: when the median is NaN
(all cells missing) `fillna` leaves the column unchanged. -/
def fillnaMedian (xs : List (Option ℚ)) : List (Option ℚ) :=
  match medianQ xs with
  | none => xs
  | some m => xs.map (fun c => some (c.getD m))

/-- Number of occurrences of `v` in `xs`. -/
def countOcc (v : String) (xs : List String) : ℕ :=
  (xs.filter (fun x => x = v)).length

/-- Of two candidate modes, the one `Series.mode()[0]` prefers: the higher
count, ties broken towards the smaller string (`mode()` sorts its result). -/
def betterMode (v : List String) (a b : String) : String :=
  if countOcc a v < countOcc b v then b
  else if countOcc a v = countOcc b v ∧ b < a then b else a

/-- `Series.mode()[0]` with NaN cells as `none`: the most frequent
non-missing value, ties broken towards the smallest; `none` models the
`KeyError` raised by `mode()[0]` on an all-NaN column (empty mode series). -/
def modeQ (xs : List (Option String)) : Option String :=
  match xs.filterMap id with
  | [] => none
  | c :: cs => some (cs.foldl (betterMode (c :: cs)) c)

/-- `col.fillna(col.mode()[0])` on a categorical column; `none` propagates
the `KeyError` of an all-NaN column. -/
def fillnaMode (xs : List (Option String)) : Option (List (Option String)) :=
  (modeQ xs).map (fun m => xs.map (fun c => some (c.getD m)))

/-- Insert into a sorted string list (ascending). -/
def insertSortedS (x : String) : List String → List String
  | [] => [x]
  | y :: ys => if x ≤ y then x :: y :: ys else y :: insertSortedS x ys

/-- Insertion sort on strings, ascending. -/
def sortS : List String → List String
  | [] => []
  | x :: xs => insertSortedS x (sortS xs)

/-- The sorted distinct categories of a column, as `pd.get_dummies`
enumerates them. -/
def catsOf (xs : List (Option String)) : List String :=
  sortS (xs.filterMap id).dedup

/-- `pd.get_dummies(..., drop_first=True, dtype=float)` on one categorical
column named `name`: one indicator column `name_value` per category except
the first (sorted) one; a missing cell yields `0` in every indicator. -/
def dummiesFor (name : String) (xs : List (Option String)) :
    List (String × List ℚ) :=
  match catsOf xs with
  | [] => []
  | _ :: rest =>
    rest.map (fun v =>
      (name ++ "_" ++ v, xs.map (fun c => if c = some v then (1 : ℚ) else 0)))

/-- The feature part of `df_model` right before the imputation loops:
numeric columns already coerced with `pd.to_numeric(errors="coerce")`
(non-numeric cells are NaN = `none`), categorical columns with missing
cells as `none`.  The `HMPI` target column is kept separately by the script
and is not part of the feature matrix. -/
structure DFModel where
  numeric : List (String × List (Option ℚ))
  categorical : List (String × List (Option String))

/-- The `for col in categorical_features` loop: mode-impute every
categorical column in order; `none` propagates the first `KeyError`. -/
def fillModes : List (String × List (Option String)) →
    Option (List (String × List (Option String)))
  | [] => some []
  | p :: ps =>
    match fillnaMode p.2, fillModes ps with
    | some ys, some rest => some ((p.1, ys) :: rest)
    | _, _ => none

/-- Lines 84–91 of `train_model.py`: median-impute the numeric columns,
mode-impute the categorical columns, then one-hot encode the categorical
columns; the resulting feature matrix `X` keeps the numeric columns in
place and appends the dummy columns.  `none` propagates the `KeyError` of
`mode()[0]` on an all-NaN categorical column. -/
def imputeEncode (df : DFModel) : Option (List (String × List (Option ℚ))) :=
  let nums := df.numeric.map (fun p => (p.1, fillnaMedian p.2))
  (fillModes df.categorical).map
    (fun cats =>
      nums ++ cats.flatMap (fun p =>
        (dummiesFor p.1 p.2).map (fun q => (q.1, q.2.map some))))

/-- `true` iff no cell of the matrix is missing (NaN). -/
def noMissingB (X : List (String × List (Option ℚ))) : Bool :=
  X.all (fun p => p.2.all Option.isSome)

end Train

/-! ## Concrete inputs used by witnesses and counterexamples -/

namespace HMPI

/-- Concrete source bundle: every external call raises. -/
def allFail : Responses := ⟨none, none, none, none, none, none, none⟩

/-- Concrete source bundle: like `allFail` but the elevation service
answers `7`. -/
def elevOk : Responses := ⟨none, none, none, none, none, none, some 7⟩

/-- Concrete loaded predictor: a constant-zero model with one training
column, all external sources failing. -/
noncomputable def pCtx0 : PredCtx := ⟨fun _ => 0, ["latitude"], allFail⟩

/-- Concrete request body with numeric coordinates. -/
noncomputable def body0 : List (String × JVal) :=
  [("latitude", .num 1), ("longitude", .num 2)]

/-- Concrete request body whose latitude is the non-numeric string "abc". -/
noncomputable def body1 : List (String × JVal) :=
  [("latitude", .str "abc"), ("longitude", .num 2)]

end HMPI

namespace Train

/-- Concrete frame whose only numeric column is entirely missing. -/
def dfBad : DFModel := ⟨[("latitude", [none])], [("soil_type", [some "clay"])]⟩

/-- Concrete frame with a present value in every column. -/
def dfGood : DFModel :=
  ⟨[("latitude", [some 1, none])],
   [("soil_type", [some "clay", none, some "loam"])]⟩

end Train

/-! ## Theorems -/

namespace HMPI

theorem lookup_append_single {α β : Type _} [BEq α] (l : List (α × β))
    (c k : α) (v : β) :
    (l ++ [(c, v)]).lookup k =
      match l.lookup k with
      | some w => some w
      | none => if k == c then some v else none := by
  induction l with
  | nil => cases h : (k == c) <;> simp [List.lookup, h]
  | cons p t ih =>
    obtain ⟨a, b⟩ := p
    cases h : (k == a) with
    | true => simp [List.lookup, h]
    | false => simp [List.lookup, h, ih]

theorem lookup_eq_none_of_not_mem {α β : Type _} [BEq α] [LawfulBEq α]
    {l : List (α × β)} {c : α} (h : c ∉ l.map Prod.fst) :
    l.lookup c = none := by
  induction l with
  | nil => rfl
  | cons p t ih =>
    obtain ⟨a, b⟩ := p
    simp only [List.map_cons, List.mem_cons] at h
    push_neg at h
    have hb : (c == a) = false := beq_eq_false_iff_ne.mpr h.1
    simp [List.lookup, hb, ih h.2]

theorem lookup_addMissingColumns_of_some {df : List (String × ℝ)}
    {c : String} {v : ℝ} (cols : List String) (h : df.lookup c = some v) :
    (addMissingColumns df cols).lookup c = some v := by
  induction cols generalizing df with
  | nil => exact h
  | cons c2 cs ih =>
    show (addMissingColumns (if (df.lookup c2).isSome then df
      else df ++ [(c2, 0)]) cs).lookup c = some v
    by_cases h2 : (df.lookup c2).isSome
    · rw [if_pos h2]; exact ih h
    · rw [if_neg h2]
      refine ih ?_
      rw [lookup_append_single, h]

theorem lookup_addMissingColumns_mem {c : String} (cols : List String)
    (df : List (String × ℝ)) (hc : c ∈ cols) :
    (addMissingColumns df cols).lookup c = some ((df.lookup c).getD 0) := by
  induction cols generalizing df with
  | nil => cases hc
  | cons c2 cs ih =>
    show (addMissingColumns (if (df.lookup c2).isSome then df
      else df ++ [(c2, 0)]) cs).lookup c = some ((df.lookup c).getD 0)
    by_cases heq : c = c2
    · subst heq
      cases hdf : df.lookup c with
      | some v =>
        rw [if_pos (show (some v).isSome = true from rfl)]
        exact lookup_addMissingColumns_of_some cs hdf
      | none =>
        rw [if_neg (by simp)]
        refine lookup_addMissingColumns_of_some cs ?_
        rw [lookup_append_single, hdf]
        simp
    · have hcs : c ∈ cs := by
        rcases List.mem_cons.mp hc with h | h
        · exact absurd h heq
        · exact h
      by_cases h2 : (df.lookup c2).isSome
      · rw [if_pos h2]; exact ih df hcs
      · rw [if_neg h2]
        rw [ih (df ++ [(c2, 0)]) hcs, lookup_append_single]
        have hb : (c == c2) = false := beq_eq_false_iff_ne.mpr heq
        cases hdf : df.lookup c <;> simp [hb]

theorem selectColumns_eq_of_lookup (df : List (String × ℝ)) (g : String → ℝ)
    (cols : List String) (h : ∀ c ∈ cols, df.lookup c = some (g c)) :
    selectColumns df cols = some (cols.map (fun c => (c, g c))) := by
  induction cols with
  | nil => rfl
  | cons c cs ih =>
    have hc := h c (List.mem_cons_self _ _)
    have ihcs := ih (fun x hx => h x (List.mem_cons_of_mem _ hx))
    simp [selectColumns, hc, ihcs]

/-- The key refinement fact: `build_features` never raises and returns the
training columns in order, each valued by the assembled dict when it has
the column and by `0` otherwise. -/
theorem build_features_eq (fc : List String) (lat lon : ℝ) (r : Responses) :
    build_features fc lat lon r =
      some (fc.map (fun c =>
        (c, ((features_dict lat lon r).lookup c).getD 0))) := by
  unfold build_features
  exact selectColumns_eq_of_lookup _ _ fc
    (fun c hc => lookup_addMissingColumns_mem fc _ hc)

/-- C1: each external-feature fetcher returns the fixed `DEFAULTS` constant
for its feature key whenever its external source fails (modelled by the
`none` response), a deterministic constant independent of the input
coordinates. -/
theorem fetchers_fail_to_defaults (lat lon : ℝ) :
    (∀ k, get_nearest_distance lat lon none k = defaultOf k) ∧
    get_elevation lat lon none = defaultOf "elevation_m" ∧
    get_rainfall lat lon none = defaultOf "annual_precip_mm" ∧
    get_population_density lat lon none = defaultOf "population_density_per_km2" ∧
    defaultOf "dist_to_nearest_industrial_area_km" = 5 ∧
    defaultOf "dist_to_nearest_drain_outfall_km" = 2 ∧
    defaultOf "dist_to_nearest_landfill_km" = 8 ∧
    defaultOf "dist_to_nearest_major_highway_km" = 3 ∧
    defaultOf "elevation_m" = 250 ∧
    defaultOf "annual_precip_mm" = 1100 ∧
    defaultOf "population_density_per_km2" = 450 :=
  ⟨fun _ => rfl, rfl, rfl, rfl, rfl, rfl, rfl, rfl, rfl, rfl, rfl⟩

/-- C9: the `land_use_category_estuary` and `soil_type_clay` entries of the
assembled feature dict are the hardcoded constants `0` and `1`, for every
coordinate and every behaviour of the external sources. -/
theorem hardcoded_constant_features (lat lon : ℝ) (r : Responses) :
    (features_dict lat lon r).lookup "land_use_category_estuary" = some 0 ∧
    (features_dict lat lon r).lookup "soil_type_clay" = some 1 :=
  ⟨rfl, rfl⟩

theorem features_lookup_latitude (lat lon : ℝ) (r : Responses) :
    (features_dict lat lon r).lookup "latitude" = some lat := rfl

theorem features_lookup_longitude (lat lon : ℝ) (r : Responses) :
    (features_dict lat lon r).lookup "longitude" = some lon := rfl

theorem features_lookup_industrial (lat lon : ℝ) (r : Responses) :
    (features_dict lat lon r).lookup "dist_to_nearest_industrial_area_km" =
      some (get_nearest_distance lat lon r.industrial
        "dist_to_nearest_industrial_area_km") := rfl

theorem features_lookup_drain (lat lon : ℝ) (r : Responses) :
    (features_dict lat lon r).lookup "dist_to_nearest_drain_outfall_km" =
      some (get_nearest_distance lat lon r.drain
        "dist_to_nearest_drain_outfall_km") := rfl

theorem features_lookup_landfill (lat lon : ℝ) (r : Responses) :
    (features_dict lat lon r).lookup "dist_to_nearest_landfill_km" =
      some (get_nearest_distance lat lon r.landfill
        "dist_to_nearest_landfill_km") := rfl

theorem features_lookup_highway (lat lon : ℝ) (r : Responses) :
    (features_dict lat lon r).lookup "dist_to_nearest_major_highway_km" =
      some (get_nearest_distance lat lon r.highway
        "dist_to_nearest_major_highway_km") := rfl

theorem features_lookup_rainfall (lat lon : ℝ) (r : Responses) :
    (features_dict lat lon r).lookup "annual_precip_mm" =
      some (get_rainfall lat lon r.rainfall) := rfl

theorem features_lookup_population (lat lon : ℝ) (r : Responses) :
    (features_dict lat lon r).lookup "population_density_per_km2" =
      some (get_population_density lat lon r.population) := rfl

theorem features_lookup_elevation (lat lon : ℝ) (r : Responses) :
    (features_dict lat lon r).lookup "elevation_m" =
      some (get_elevation lat lon r.elevation) := rfl

/-- C6: each assembled feature value depends only on `(lat, lon)` and the
response of its own external data source; two runs that agree on one
source's response agree on that source's feature value, whatever the other
sources did, and the non-fetched entries agree unconditionally. -/
theorem feature_source_independence (lat lon : ℝ) (r r2 : Responses) :
    (r.industrial = r2.industrial →
      (features_dict lat lon r).lookup "dist_to_nearest_industrial_area_km" =
      (features_dict lat lon r2).lookup "dist_to_nearest_industrial_area_km") ∧
    (r.drain = r2.drain →
      (features_dict lat lon r).lookup "dist_to_nearest_drain_outfall_km" =
      (features_dict lat lon r2).lookup "dist_to_nearest_drain_outfall_km") ∧
    (r.landfill = r2.landfill →
      (features_dict lat lon r).lookup "dist_to_nearest_landfill_km" =
      (features_dict lat lon r2).lookup "dist_to_nearest_landfill_km") ∧
    (r.highway = r2.highway →
      (features_dict lat lon r).lookup "dist_to_nearest_major_highway_km" =
      (features_dict lat lon r2).lookup "dist_to_nearest_major_highway_km") ∧
    (r.rainfall = r2.rainfall →
      (features_dict lat lon r).lookup "annual_precip_mm" =
      (features_dict lat lon r2).lookup "annual_precip_mm") ∧
    (r.population = r2.population →
      (features_dict lat lon r).lookup "population_density_per_km2" =
      (features_dict lat lon r2).lookup "population_density_per_km2") ∧
    (r.elevation = r2.elevation →
      (features_dict lat lon r).lookup "elevation_m" =
      (features_dict lat lon r2).lookup "elevation_m") ∧
    (features_dict lat lon r).lookup "latitude" =
      (features_dict lat lon r2).lookup "latitude" ∧
    (features_dict lat lon r).lookup "longitude" =
      (features_dict lat lon r2).lookup "longitude" ∧
    (features_dict lat lon r).lookup "land_use_category_estuary" =
      (features_dict lat lon r2).lookup "land_use_category_estuary" ∧
    (features_dict lat lon r).lookup "soil_type_clay" =
      (features_dict lat lon r2).lookup "soil_type_clay" := by
  refine ⟨?_, ?_, ?_, ?_, ?_, ?_, ?_, rfl, rfl, rfl, rfl⟩ <;>
    (intro h;
     simp only [features_lookup_industrial, features_lookup_drain,
       features_lookup_landfill, features_lookup_highway,
       features_lookup_rainfall, features_lookup_population,
       features_lookup_elevation, h])

/-- Witness for C6 at two concrete bundles differing only in the elevation
response. -/
theorem feature_source_independence_witness :
    (features_dict 0 0 allFail).lookup "annual_precip_mm" =
      (features_dict 0 0 elevOk).lookup "annual_precip_mm" ∧
    (features_dict 0 0 allFail).lookup "dist_to_nearest_industrial_area_km" =
      (features_dict 0 0 elevOk).lookup "dist_to_nearest_industrial_area_km" :=
  ⟨(feature_source_independence 0 0 allFail elevOk).2.2.2.2.1 rfl,
   (feature_source_independence 0 0 allFail elevOk).1 rfl⟩

/-- C2: `build_features` returns the vector whose columns are exactly the
persisted training columns in their order; a training column absent from
the assembled dict is filled with `0`, and an assembled feature outside the
training columns is dropped. -/
theorem build_features_fixed_order (fc : List String) (lat lon : ℝ)
    (r : Responses) :
    ∃ out, build_features fc lat lon r = some out ∧
      out.map Prod.fst = fc ∧
      (∀ c ∈ fc, out.lookup c =
        some (((features_dict lat lon r).lookup c).getD 0)) ∧
      (∀ c, c ∉ fc → out.lookup c = none) := by
  refine ⟨_, build_features_eq fc lat lon r, ?_, ?_, ?_⟩
  · simp [Function.comp_def]
  · intro c hc
    exact List.lookup_graph _ hc
  · intro c hc
    exact lookup_eq_none_of_not_mem (by simpa using hc)

/-- Witness for C2: a training column list with one assembled and one
unknown column, every source failing. -/
theorem build_features_fixed_order_witness :
    ∃ out, build_features ["latitude", "mystery"] 1 2 allFail = some out ∧
      out.map Prod.fst = ["latitude", "mystery"] ∧
      (∀ c ∈ ["latitude", "mystery"], out.lookup c =
        some (((features_dict 1 2 allFail).lookup c).getD 0)) ∧
      (∀ c, c ∉ ["latitude", "mystery"] → out.lookup c = none) :=
  build_features_fixed_order ["latitude", "mystery"] 1 2 allFail

/-- C3: `get_prediction` is exactly the loaded model applied to the
`build_features` vector, rounded to two decimals, with no other computation
(the embedding is a pure function of the loaded model, the loaded column
list and the request, so neither is modified). -/
theorem get_prediction_is_rounded_model (model : List (String × ℝ) → ℝ)
    (fc : List String) (lat lon : ℝ) (r : Responses) :
    ∃ X, build_features fc lat lon r = some X ∧
      get_prediction model fc lat lon r = some (round2 (model X)) :=
  ⟨_, build_features_eq fc lat lon r, by
    rw [get_prediction, build_features_eq]; rfl⟩

theorem listMin_spec : ∀ l : List ℝ, l ≠ [] → listMin l ∈ l ∧ ∀ x ∈ l, listMin l ≤ x
  | [], h => absurd rfl h
  | [x], _ => by
    refine ⟨by simp [listMin], ?_⟩
    intro z hz
    rcases List.mem_singleton.mp hz with rfl
    exact le_refl _
  | x :: y :: xs, _ => by
    have ih := listMin_spec (y :: xs) (by simp)
    have hm : listMin (x :: y :: xs) = min x (listMin (y :: xs)) := rfl
    constructor
    · rcases min_choice x (listMin (y :: xs)) with h | h
      · rw [hm, h]; exact List.mem_cons_self _ _
      · rw [hm, h]; exact List.mem_cons_of_mem _ ih.1
    · intro z hz
      rcases List.mem_cons.mp hz with rfl | hz2
      · rw [hm]; exact min_le_left _ _
      · rw [hm]; exact le_trans (min_le_right _ _) (ih.2 z hz2)

/-- C5: on a successful map-feature search returning at least one feature
with coordinates, `_get_nearest_distance` returns the minimum over the
returned features of the planar Euclidean distance in degrees between
`(lon, lat)` and the feature, multiplied by 111: the distance to the
nearest returned feature. -/
theorem get_nearest_distance_nearest (lat lon : ℝ) (elems : List OverpassElem)
    (fallback_key : String) (h : elems.filterMap id ≠ []) :
    get_nearest_distance lat lon (some elems) fallback_key ∈
      (elems.filterMap id).map
        (fun c => pointDistance (lon, lat) (c.2, c.1) * 111) ∧
    ∀ d ∈ (elems.filterMap id).map
        (fun c => pointDistance (lon, lat) (c.2, c.1) * 111),
      get_nearest_distance lat lon (some elems) fallback_key ≤ d := by
  have hne : (elems.filterMap id).map
      (fun c => pointDistance (lon, lat) (c.2, c.1) * 111) ≠ [] := by
    simpa using h
  have hred : get_nearest_distance lat lon (some elems) fallback_key =
      listMin ((elems.filterMap id).map
        (fun c => pointDistance (lon, lat) (c.2, c.1) * 111)) := by
    unfold get_nearest_distance
    simp [List.isEmpty_iff, h]
  rw [hred]
  exact listMin_spec _ hne

/-- Witness for C5: a single returned feature at the query point itself. -/
theorem get_nearest_distance_nearest_witness :
    get_nearest_distance 0 0 (some [some ((0 : ℝ), (0 : ℝ))]) "x" ≤
      pointDistance ((0 : ℝ), (0 : ℝ)) ((0 : ℝ), (0 : ℝ)) * 111 :=
  (get_nearest_distance_nearest 0 0 [some (0, 0)] "x" (by simp)).2 _ (by simp)

/-- C4: with the predictor loaded and a JSON body carrying numeric
`latitude` and `longitude`, the endpoint routes to `get_prediction` and
answers 200 with the parsed coordinates and `predicted_hmpi`; with the
predictor not loaded it answers 500 with an error message. -/
theorem predict_endpoint_routes (p : PredCtx) (body : List (String × JVal))
    (la lo : ℝ)
    (hla : body.lookup "latitude" = some (.num la))
    (hlo : body.lookup "longitude" = some (.num lo)) :
    (∃ h, get_prediction p.model p.feature_columns la lo p.resp = some h ∧
      predict_hmpi (some p) (.ok (some body)) = (200, .success la lo h)) ∧
    (∀ g, predict_hmpi none g =
      (500, .failure "Predictor pipeline not available on server.")) := by
  have hgp : get_prediction p.model p.feature_columns la lo p.resp =
      some (round2 (p.model (p.feature_columns.map (fun c =>
        (c, ((features_dict la lo p.resp).lookup c).getD 0))))) := by
    rw [get_prediction, build_features_eq]; rfl
  have hne : body.isEmpty = false := by
    cases body with
    | nil => simp [List.lookup] at hla
    | cons q t => rfl
  refine ⟨⟨_, hgp, ?_⟩, fun g => rfl⟩
  simp [predict_hmpi, hla, hlo, hne, pyFloat, hgp]

/-- Witness for C4 at a concrete predictor and body. -/
theorem predict_endpoint_routes_witness :
    ∃ h, get_prediction pCtx0.model pCtx0.feature_columns 1 2 pCtx0.resp =
        some h ∧
      predict_hmpi (some pCtx0) (.ok (some body0)) = (200, .success 1 2 h) :=
  (predict_endpoint_routes pCtx0 body0 1 2 rfl rfl).1

/-- C10: the endpoint answers 400 only when the parsed body is `None`,
empty, or lacks a `latitude` or `longitude` key; a body whose `latitude`
is the non-float string "abc" makes `float` raise inside the `try` block
and is answered 500 with a "Prediction failed" message, not 400. -/
theorem predict_endpoint_400_only (pred : Option PredCtx)
    (getJson : Except String ReqBody) :
    ((predict_hmpi pred getJson).1 = 400 →
      ∃ p dataOpt, pred = some p ∧ getJson = .ok dataOpt ∧
        (dataOpt = none ∨ ∃ body, dataOpt = some body ∧
          (body = [] ∨ (body.lookup "latitude").isNone ∨
            (body.lookup "longitude").isNone))) ∧
    (∀ p (body : List (String × JVal)) (w : JVal),
      body.lookup "latitude" = some (.str "abc") →
      body.lookup "longitude" = some w →
      predict_hmpi (some p) (.ok (some body)) =
        (500, .failure
          "Prediction failed: could not convert string to float: abc")) := by
  constructor
  · intro h400
    match pred with
    | none => simp [predict_hmpi] at h400
    | some p =>
      match getJson with
      | .error e => simp [predict_hmpi] at h400
      | .ok none => exact ⟨p, none, rfl, rfl, .inl rfl⟩
      | .ok (some body) =>
        refine ⟨p, some body, rfl, rfl, .inr ⟨body, rfl, ?_⟩⟩
        by_cases hcond : (body.isEmpty = true ∨
            (body.lookup "latitude").isNone = true ∨
            (body.lookup "longitude").isNone = true)
        · rcases hcond with h | h | h
          · exact .inl (List.isEmpty_iff.mp h)
          · exact .inr (.inl h)
          · exact .inr (.inr h)
        · exfalso
          push_neg at hcond
          obtain ⟨h1, h2, h3⟩ := hcond
          cases hla : body.lookup "latitude" with
          | none => exact h2 (by rw [hla]; rfl)
          | some latv =>
            cases hlo : body.lookup "longitude" with
            | none => exact h3 (by rw [hlo]; rfl)
            | some lonv =>
              have hne : body.isEmpty = false := by
                cases body with
                | nil => simp [List.lookup] at hla
                | cons q t => rfl
              rw [show predict_hmpi (some p) (.ok (some body)) =
                  (match pyFloat latv with
                   | .error e => (500, .failure ("Prediction failed: " ++ e))
                   | .ok lat =>
                     match pyFloat lonv with
                     | .error e => (500, .failure ("Prediction failed: " ++ e))
                     | .ok lon =>
                       match get_prediction p.model p.feature_columns lat lon
                           p.resp with
                       | some h => (200, .success lat lon h)
                       | none => (500, .failure "Prediction failed: KeyError"))
                  from by simp [predict_hmpi, hla, hlo, hne]] at h400
              cases hf : pyFloat latv with
              | error e => rw [hf] at h400; simp at h400
              | ok lat =>
                rw [hf] at h400
                cases hg : pyFloat lonv with
                | error e => rw [hg] at h400; simp at h400
                | ok lon =>
                  rw [hg] at h400
                  simp only [] at h400
                  cases hp : get_prediction p.model p.feature_columns lat lon
                      p.resp with
                  | none => rw [hp] at h400; simp at h400
                  | some h => rw [hp] at h400; simp at h400
  · intro p body w hla hlo
    have hne : body.isEmpty = false := by
      cases body with
      | nil => simp [List.lookup] at hla
      | cons q t => rfl
    have habc : pyFloat (.str "abc") =
        .error "could not convert string to float: abc" := rfl
    simp [predict_hmpi, hla, hlo, hne, habc]

/-- Witness for C10: a `None` body yields 400 from a loaded predictor, and
a body with `"latitude": "abc"` yields the 500 conversion failure. -/
theorem predict_endpoint_400_only_witness :
    (∃ p dataOpt, some pCtx0 = some p ∧
      (.ok none : Except String ReqBody) = .ok dataOpt ∧
      (dataOpt = none ∨ ∃ body, dataOpt = some body ∧
        (body = [] ∨ (body.lookup "latitude").isNone ∨
          (body.lookup "longitude").isNone))) ∧
    predict_hmpi (some pCtx0) (.ok (some body1)) =
      (500, .failure
        "Prediction failed: could not convert string to float: abc") :=
  ⟨(predict_endpoint_400_only (some pCtx0) (.ok none)).1 rfl,
   (predict_endpoint_400_only (some pCtx0) (.ok (some body1))).2
     pCtx0 body1 (.num 2) rfl rfl⟩

end HMPI

namespace Train

/-- C8: the denominator of `calculate_hmpi` is the fixed positive rational
sum of the reciprocals of the nine limits, so the `np.nan` branch is
unreachable and every row's HMPI is exactly the weighted formula. -/
theorem calculate_hmpi_formula (row : String → ℚ) :
    hmpiDenominator = (limits.map (fun p => 1 / p.2)).sum ∧
    0 < hmpiDenominator ∧
    calculate_hmpi row =
      some ((limits.map (fun p => row p.1 / p.2 * 100 * (1 / p.2))).sum /
        (limits.map (fun p => 1 / p.2)).sum) := by
  have hpos : 0 < hmpiDenominator := by
    norm_num [hmpiDenominator, weights, limits]
  refine ⟨rfl, hpos, ?_⟩
  unfold calculate_hmpi
  rw [if_pos hpos]
  rfl

theorem length_insertSortedQ (x : ℚ) (l : List ℚ) :
    (insertSortedQ x l).length = l.length + 1 := by
  induction l with
  | nil => rfl
  | cons y ys ih => by_cases h : x ≤ y <;> simp [insertSortedQ, h, ih]

theorem length_sortQ (l : List ℚ) : (sortQ l).length = l.length := by
  induction l with
  | nil => rfl
  | cons x xs ih => simp [sortQ, length_insertSortedQ, ih]

theorem medianQ_isSome {xs : List (Option ℚ)} (h : xs.filterMap id ≠ []) :
    ∃ m, medianQ xs = some m := by
  unfold medianQ
  have hvlen : 0 < (sortQ (xs.filterMap id)).length := by
    rw [length_sortQ]
    cases hfm : xs.filterMap id with
    | nil => exact absurd hfm h
    | cons a l => simp
  set v := sortQ (xs.filterMap id) with hv
  by_cases hodd : v.length % 2 = 1
  · rw [if_pos hodd]
    cases hg : v.get? (v.length / 2) with
    | none =>
      rw [List.get?_eq_none] at hg
      have hlt : v.length / 2 < v.length := Nat.div_lt_self hvlen (by omega)
      omega
    | some m => exact ⟨m, rfl⟩
  · rw [if_neg hodd]
    have h2 : 2 ≤ v.length := by omega
    cases hg1 : v.get? (v.length / 2 - 1) with
    | none =>
      rw [List.get?_eq_none] at hg1
      have := Nat.div_le_self v.length 2
      omega
    | some a =>
      cases hg2 : v.get? (v.length / 2) with
      | none =>
        rw [List.get?_eq_none] at hg2
        have hlt : v.length / 2 < v.length := Nat.div_lt_self hvlen (by omega)
        omega
      | some b => exact ⟨(a + b) / 2, rfl⟩

theorem fillnaMedian_eq {xs : List (Option ℚ)} {m : ℚ}
    (h : medianQ xs = some m) :
    fillnaMedian xs = xs.map (fun c => some (c.getD m)) := by
  unfold fillnaMedian
  rw [h]

theorem modeQ_isSome {xs : List (Option String)} (h : xs.filterMap id ≠ []) :
    ∃ m, modeQ xs = some m := by
  unfold modeQ
  cases hfm : xs.filterMap id with
  | nil => exact absurd hfm h
  | cons c cs => exact ⟨_, rfl⟩

theorem fillnaMode_eq {xs : List (Option String)} (h : xs.filterMap id ≠ []) :
    ∃ m, modeQ xs = some m ∧
      fillnaMode xs = some (xs.map (fun c => some (c.getD m))) := by
  obtain ⟨m, hm⟩ := modeQ_isSome h
  refine ⟨m, hm, ?_⟩
  unfold fillnaMode
  rw [hm]
  rfl

theorem fillModes_isSome {l : List (String × List (Option String))}
    (h : ∀ p ∈ l, p.2.filterMap id ≠ []) :
    ∃ ys, fillModes l = some ys ∧
      ∀ q ∈ ys, ∃ p, p ∈ l ∧ q.1 = p.1 ∧ fillnaMode p.2 = some q.2 := by
  induction l with
  | nil => exact ⟨[], rfl, by simp⟩
  | cons p ps ih =>
    obtain ⟨m, hm, hfill⟩ := fillnaMode_eq (h p (List.mem_cons_self _ _))
    obtain ⟨ys, hys, hprop⟩ := ih (fun q hq => h q (List.mem_cons_of_mem _ hq))
    refine ⟨(p.1, p.2.map (fun c => some (c.getD m))) :: ys, ?_, ?_⟩
    · simp [fillModes, hfill, hys]
    · intro q hq
      rcases List.mem_cons.mp hq with rfl | hq2
      · exact ⟨p, List.mem_cons_self _ _, rfl, hfill⟩
      · obtain ⟨p2, hp2, h1, h2⟩ := hprop q hq2
        exact ⟨p2, List.mem_cons_of_mem _ hp2, h1, h2⟩

/-- C7 (amended): provided every numeric and every categorical feature
column has at least one non-missing cell, the script median-imputes the
numeric columns, mode-imputes the categorical columns, only then one-hot
encodes the categorical columns, and the resulting feature matrix has no
missing cell. -/
theorem imputeEncode_no_missing (df : DFModel)
    (hnum : ∀ p ∈ df.numeric, p.2.filterMap id ≠ [])
    (hcat : ∀ p ∈ df.categorical, p.2.filterMap id ≠ []) :
    ∃ X, imputeEncode df = some X ∧ noMissingB X = true ∧
      (∀ p ∈ df.numeric, ∃ m, medianQ p.2 = some m ∧
        fillnaMedian p.2 = p.2.map (fun c => some (c.getD m))) ∧
      (∀ p ∈ df.categorical, ∃ m, modeQ p.2 = some m ∧
        fillnaMode p.2 = some (p.2.map (fun c => some (c.getD m)))) := by
  obtain ⟨ys, hys, hprop⟩ := fillModes_isSome hcat
  refine ⟨df.numeric.map (fun p => (p.1, fillnaMedian p.2)) ++
      ys.flatMap (fun p =>
        (dummiesFor p.1 p.2).map (fun q => (q.1, q.2.map some))), ?_, ?_, ?_, ?_⟩
  · unfold imputeEncode
    rw [hys]
    rfl
  · rw [noMissingB, List.all_eq_true]
    intro p hp
    rcases List.mem_append.mp hp with hp1 | hp2
    · obtain ⟨q, hq, rfl⟩ := List.mem_map.mp hp1
      obtain ⟨m, hm⟩ := medianQ_isSome (hnum q hq)
      rw [fillnaMedian_eq hm]
      simp
    · obtain ⟨a, ha, hpd⟩ := List.mem_flatMap.mp hp2
      obtain ⟨q, hq, rfl⟩ := List.mem_map.mp hpd
      simp
  · intro p hp
    obtain ⟨m, hm⟩ := medianQ_isSome (hnum p hp)
    exact ⟨m, hm, fillnaMedian_eq hm⟩
  · intro p hp
    exact fillnaMode_eq (hcat p hp)

/-- Counterexample to C7 as stated: a numeric column whose cells are all
missing has NaN median, `fillna` leaves it unchanged, and the encoded
matrix still contains a missing value. -/
theorem imputeEncode_missing_counterexample :
    imputeEncode dfBad = some [("latitude", [none])] ∧
    noMissingB [("latitude", [(none : Option ℚ)])] = false :=
  ⟨rfl, rfl⟩

/-- Witness for the amended C7 at a concrete frame with a present value in
every column. -/
theorem imputeEncode_no_missing_witness :
    ∃ X, imputeEncode dfGood = some X ∧ noMissingB X = true ∧
      (∀ p ∈ dfGood.numeric, ∃ m, medianQ p.2 = some m ∧
        fillnaMedian p.2 = p.2.map (fun c => some (c.getD m))) ∧
      (∀ p ∈ dfGood.categorical, ∃ m, modeQ p.2 = some m ∧
        fillnaMode p.2 = some (p.2.map (fun c => some (c.getD m)))) :=
  imputeEncode_no_missing dfGood (by decide) (by decide)

end Train

